import Mathlib

/-!
Verification of the summarize_vehicle aggregation pipeline.

Shallow embedding of src/summarize/summarize.py and the store operations of
src/database/postgresql_client.py.  Python floats and SQL numerics are
modelled as rationals, timestamps as integers, fallible Python code as
Except values, and the relational store as an explicit record of tables.
-/

namespace SummarizeVehicle

deriving instance DecidableEq for Except

set_option maxRecDepth 100000

/-- Python exception classes raised by the code under study. -/
inductive PyErr where
  | valueError : String → PyErr
  | nameError : String → PyErr
  | databaseError : String → PyErr
  | ioError : String → PyErr
deriving DecidableEq, Repr

/-! ## Route model: mark_parse, mileage_diff (summarize.py lines 31-57) -/

/-- Numeric value of a digit string, as in Python int() on the regex groups. -/
def digitsVal (cs : List Char) : ℕ :=
  cs.foldl (fun acc c => 10 * acc + (c.toNat - 48)) 0

/-- Python str.strip(): drop whitespace from both ends of the char list. -/
def stripChars (cs : List Char) : List Char :=
  ((cs.dropWhile Char.isWhitespace).reverse.dropWhile Char.isWhitespace).reverse

/-- mark_parse (summarize.py lines 31-44): match the mark against the pattern
of a K, one or more digits, a plus sign and exactly three digits, and return
km + meters/1000; raise ValueError otherwise. -/
def mark_parse (mark : String) : Except PyErr ℚ :=
  match stripChars mark.data with
  | 'K' :: rest =>
    let kmDigits := rest.takeWhile Char.isDigit
    let afterKm := rest.dropWhile Char.isDigit
    if kmDigits.isEmpty then .error (.valueError mark)
    else
      match afterKm with
      | '+' :: ms =>
        if ms.length == 3 && ms.all Char.isDigit then
          .ok ((digitsVal kmDigits : ℚ) + (digitsVal ms : ℚ) / 1000)
        else .error (.valueError mark)
      | _ => .error (.valueError mark)
  | _ => .error (.valueError mark)

/-- Python abs() on a rational. -/
def pyAbs (q : ℚ) : ℚ := if q < 0 then -q else q

/-- mileage_diff (summarize.py lines 46-57): parse both marks and return
abs(index1 - index2) / 1000. -/
def mileage_diff (mark1 mark2 : String) : Except PyErr ℚ :=
  match mark_parse mark1 with
  | .error e => .error e
  | .ok index1 =>
    match mark_parse mark2 with
    | .error e => .error e
    | .ok index2 => .ok (pyAbs (index1 - index2) / 1000)

/-! ## Standard route and position lookup (summarize.py lines 79-117) -/

/-- Does the needle start the haystack (char-list level)? -/
def startsWith : List Char → List Char → Bool
  | [], _ => true
  | _ :: _, [] => false
  | c :: cs, h :: hs => c == h && startsWith cs hs

/-- Python substring test needle in hay, on char lists. -/
def isSubstringOf (needle : List Char) : List Char → Bool
  | [] => startsWith needle []
  | h :: t => startsWith needle (h :: t) || isSubstringOf needle t

/-- Python expression mark in path for strings: substring containment. -/
def strContains (path mark : String) : Bool :=
  isSubstringOf mark.data path.data

/-- The standard_path configuration: outbound and inbound mark sequences
(VehicleDataProcessor.__init__, summarize.py lines 79-84). -/
structure RouteConfig where
  outbound : List String
  inbound : List String
deriving DecidableEq, Repr

/-- The default standard_path used when the business configuration does not
override it (summarize.py lines 80-82).  The inbound direction repeats the
token K0100+300 at three positions. -/
def defaultRoute : RouteConfig :=
  { outbound := ["K0001+000", "K0100+000", "K0200+000", "K0300+000"],
    inbound := ["K0001+300", "K0100+300", "K0100+300", "K0100+300"] }

/-- The enumerate loop of path_index over one direction: index of the first
path entry that contains the mark as a substring. -/
def scan_path (mark : String) : List String → Option ℕ
  | [] => none
  | p :: rest =>
    if strContains p mark then some 0
    else (scan_path mark rest).map (· + 1)

/-- path_index (summarize.py lines 86-104): None is rejected; the outbound
sequence is scanned first; only if no outbound entry matches is the inbound
sequence scanned, its index offset by 10000; if neither matches, ValueError. -/
def path_index (cfg : RouteConfig) (mark : Option String) : Except PyErr ℤ :=
  match mark with
  | none => .error (.valueError "None")
  | some m =>
    match scan_path m cfg.outbound with
    | some loc => .ok (loc : ℤ)
    | none =>
      match scan_path m cfg.inbound with
      | some loc => .ok ((loc : ℤ) + 10000)
      | none => .error (.valueError m)

/-- is_continuous (summarize.py lines 106-117): both positions are looked up
and the result is the test index1 - index2 == 1. -/
def is_continuous (cfg : RouteConfig) (mark1 mark2 : String) : Except PyErr Bool :=
  match path_index cfg (some mark1) with
  | .error e => .error e
  | .ok index1 =>
    match path_index cfg (some mark2) with
    | .error e => .error e
    | .ok index2 => .ok (decide (index1 - index2 = 1))

/-! ## Per-vehicle fold (summarize.py lines 244-336) -/

/-- One staged record: the columns plate, mark, pass_time selected from the
staging relation.  Timestamps are modelled as integers. -/
structure TraceRow where
  plate : String
  mark : Option String
  passTime : ℤ
deriving DecidableEq, Repr

/-- The mutable loop state of the per-plate fold: the four vehicle_info
fields read at the start (summarize.py lines 281-284). -/
structure FoldState where
  lastRecord : Option String
  lastRecordTime : Option ℤ
  mileage : ℚ
  bonus : ℚ
deriving DecidableEq, Repr

/-- The guard of summarize.py line 292: the record is skipped when
last_record_time is not None and pass_time is strictly earlier. -/
def timeSkips (lastRecordTime : Option ℤ) (passTime : ℤ) : Bool :=
  match lastRecordTime with
  | some t => passTime < t
  | none => false

/-- The body of the per-record loop (summarize.py lines 288-309): skip stale
records; when both the mark and last_record are present and is_continuous
holds, add mileage_diff to the mileage; then move last_record and
last_record_time to the current record.  Exceptions propagate. -/
def process_record (cfg : RouteConfig) (st : FoldState) (r : TraceRow) :
    Except PyErr FoldState :=
  if timeSkips st.lastRecordTime r.passTime then .ok st
  else
    match r.mark, st.lastRecord with
    | some mk, some lr =>
      match is_continuous cfg mk lr with
      | .error e => .error e
      | .ok c =>
        if c then
          match mileage_diff mk lr with
          | .error e => .error e
          | .ok d =>
            .ok { lastRecord := some mk, lastRecordTime := some r.passTime,
                  mileage := st.mileage + d, bonus := st.bonus }
        else
          .ok { lastRecord := some mk, lastRecordTime := some r.passTime,
                mileage := st.mileage, bonus := st.bonus }
    | _, _ =>
      .ok { lastRecord := r.mark, lastRecordTime := some r.passTime,
            mileage := st.mileage, bonus := st.bonus }

/-- The whole record loop: records processed left to right, in the order the
staging query delivered them. -/
def process_records (cfg : RouteConfig) : FoldState → List TraceRow → Except PyErr FoldState
  | st, [] => .ok st
  | st, r :: rest =>
    match process_record cfg st r with
    | .error e => .error e
    | .ok st' => process_records cfg st' rest

/-- One vehicle_info row as read and written by the fold (the columns
last_record, last_record_time, mileage, bonus, points). -/
structure VehicleRow where
  lastRecord : Option String
  lastRecordTime : Option ℤ
  mileage : ℚ
  bonus : ℚ
  points : ℚ
deriving DecidableEq, Repr

/-- The fold over one vehicle row (summarize.py lines 281-322, after the
database client has been obtained): start from the loaded ledger fields, run
the record loop, then overwrite points with mileage * bonus.  The update
statement writes last_record, last_record_time, mileage and points; bonus is
not written back. -/
def plateFold (cfg : RouteConfig) (row : VehicleRow) (records : List TraceRow) :
    Except PyErr VehicleRow :=
  match process_records cfg
      { lastRecord := row.lastRecord, lastRecordTime := row.lastRecordTime,
        mileage := row.mileage, bonus := row.bonus } records with
  | .error e => .error e
  | .ok st =>
    .ok { lastRecord := st.lastRecord, lastRecordTime := st.lastRecordTime,
          mileage := st.mileage, bonus := row.bonus,
          points := st.mileage * st.bonus }

/-! ## Module namespace of summarize.py (lines 1-29)

Python resolves a global name against the module namespace (its imports and
top-level definitions) and the builtins.  The list below collects every name
bound at the top level of summarize.py; the class PostSQLClient defined in
src/database/postsql_client.py is never imported there, and no builtin of
that name exists. -/

/-- Names bound in the module namespace of summarize.py: the imports of
lines 1-17 and the top-level definitions. -/
def moduleScope : List String :=
  ["List", "Dict", "Any", "Optional", "defaultdict", "Decimal",
   "PostgreSQLClient", "csv", "datetime", "re", "logging", "os",
   "contextmanager", "ThreadPoolExecutor", "as_completed", "threading",
   "sys", "config_manager", "log_config", "logger",
   "mark_parse", "mileage_diff", "VehicleDataProcessor"]

/-- Python global-name resolution in summarize.py: a NameError is raised for
a name that the module namespace does not bind. -/
def resolveName (name : String) : Except PyErr Unit :=
  if moduleScope.contains name then .ok () else .error (.nameError name)

/-! ## Relational store (src/database/postgresql_client.py)

The store is modelled as the master vehicle_info relation keyed by plate,
the append-only vehicle_record log, and the named transient relations.  The
client constants name the transient relations raw_trace_data,
filtered_trace_data and staging_trace_data (postgresql_client.py lines
315-318). -/

/-- The relational store visible to the pipeline. -/
structure Store where
  vehicleInfo : List (String × VehicleRow)
  vehicleRecord : List TraceRow
  tables : List (String × List TraceRow)
deriving DecidableEq, Repr

/-- Contents of a named transient relation, if it exists. -/
def lookupTable (s : Store) (name : String) : Option (List TraceRow) :=
  (s.tables.find? (fun kv => kv.1 == name)).map Prod.snd

/-- The vehicle_info row of a plate, if registered. -/
def lookupVehicle (s : Store) (plate : String) : Option VehicleRow :=
  (s.vehicleInfo.find? (fun kv => kv.1 == plate)).map Prod.snd

/-- UPDATE vehicle_info ... WHERE plate = given plate. -/
def updateVehicle (s : Store) (plate : String) (row : VehicleRow) : Store :=
  { s with vehicleInfo :=
      s.vehicleInfo.map (fun kv => if kv.1 == plate then (kv.1, row) else kv) }

/-- DROP TABLE IF EXISTS (postgresql_client.py lines 321-331). -/
def drop_table_if_exists (s : Store) (name : String) : Store :=
  { s with tables := s.tables.filter (fun kv => !(kv.1 == name)) }

/-- Create or replace a named transient relation. -/
def setTable (s : Store) (name : String) (rows : List TraceRow) : Store :=
  { s with tables := (name, rows) :: s.tables.filter (fun kv => !(kv.1 == name)) }

/-- create_raw_table (postgresql_client.py lines 333-347): CREATE TEMP TABLE
IF NOT EXISTS on the relation named raw_trace_data. -/
def create_raw_table (s : Store) : Store :=
  match lookupTable s "raw_trace_data" with
  | some _ => s
  | none => setTable s "raw_trace_data" []

/-- create_filtered_table (postgresql_client.py lines 349-363): CREATE TEMP
TABLE IF NOT EXISTS on the relation named filtered_trace_data. -/
def create_filtered_table (s : Store) : Store :=
  match lookupTable s "filtered_trace_data" with
  | some _ => s
  | none => setTable s "filtered_trace_data" []

/-- copy_from (postgresql_client.py lines 296-313): append the rows to the
named relation; a DatabaseError is raised when the relation does not
exist. -/
def copy_from (s : Store) (name : String) (rows : List TraceRow) :
    Except PyErr Store :=
  match lookupTable s name with
  | some existing => .ok (setTable s name (existing ++ rows))
  | none => .error (.databaseError name)

/-- SELECT DISTINCT: keep the first occurrence of each row. -/
def distinctRows (l : List TraceRow) : List TraceRow :=
  l.foldl (fun acc r => if acc.contains r then acc else acc ++ [r]) []

/-- import_from_raw_to_filtered (postgresql_client.py lines 365-382): insert
into filtered_trace_data the distinct raw_trace_data rows whose plate joins
vehicle_info. -/
def import_from_raw_to_filtered (s : Store) : Except PyErr Store :=
  match lookupTable s "raw_trace_data", lookupTable s "filtered_trace_data" with
  | some raw, some filt =>
    .ok (setTable s "filtered_trace_data"
      (filt ++ distinctRows (raw.filter (fun r => (lookupVehicle s r.plate).isSome))))
  | _, _ => .error (.databaseError "raw_trace_data or filtered_trace_data")

/-- SELECT COUNT(*) FROM the named relation (summarize.py line 206). -/
def execute_count (s : Store) (name : String) : Except PyErr ℕ :=
  match lookupTable s name with
  | some rows => .ok rows.length
  | none => .error (.databaseError name)

/-- create_and_populate_staging (postgresql_client.py lines 384-408): drop
staging_trace_data, then create it from the distinct filtered_trace_data
rows with a non-null mark; fails when filtered_trace_data does not exist. -/
def create_and_populate_staging (s : Store) : Except PyErr Store :=
  match lookupTable (drop_table_if_exists s "staging_trace_data") "filtered_trace_data" with
  | none => .error (.databaseError "filtered_trace_data")
  | some rows =>
    .ok (setTable (drop_table_if_exists s "staging_trace_data") "staging_trace_data"
      (distinctRows (rows.filter (fun r => r.mark.isSome))))

/-- import_from_staging_to_vehicle_record (postgresql_client.py lines
410-421): append the staging_trace_data rows to the vehicle_record log. -/
def import_from_staging_to_vehicle_record (s : Store) : Except PyErr Store :=
  match lookupTable s "staging_trace_data" with
  | some rows => .ok { s with vehicleRecord := s.vehicleRecord ++ rows }
  | none => .error (.databaseError "staging_trace_data")

/-! ## CSV trace import (summarize.py lines 181-215) -/

/-- The transactional body of import_vehicle_trace_from_csv: drop the
relation named raw_table, create the raw relation (which create_raw_table
names raw_trace_data), COPY the file rows into the relation named raw_table,
build the filtered relation, count the rows of raw_table and drop it. -/
def importTraceBody (csvRows : List TraceRow) (s : Store) : Except PyErr (ℕ × Store) :=
  match copy_from (create_raw_table (drop_table_if_exists s "raw_table")) "raw_table" csvRows with
  | .error e => .error e
  | .ok s3 =>
    match import_from_raw_to_filtered (create_filtered_table (drop_table_if_exists s3 "filtered_table")) with
    | .error e => .error e
    | .ok s5 =>
      match execute_count s5 "raw_table" with
      | .error e => .error e
      | .ok cnt => .ok (cnt, drop_table_if_exists s5 "raw_table")

/-- import_vehicle_trace_from_csv (summarize.py lines 181-215): the body runs
inside db_connection, which rolls the transaction back on any failure; the
outer handler converts any exception into an IOError. -/
def import_vehicle_trace_from_csv (csvRows : List TraceRow) (s : Store) :
    Except PyErr ℕ × Store :=
  match importTraceBody csvRows s with
  | .ok (cnt, s') => (.ok cnt, s')
  | .error _ => (.error (.ioError "import_vehicle_trace_from_csv"), s)

/-! ## Aggregation engine (summarize.py lines 244-400) -/

/-- The body of _process_single_plate (summarize.py lines 252-324): the
per-task database client is constructed from the name PostSQLClient, which
must first be resolved in the module namespace; then the vehicle_info row is
read (a missing row is skipped with True), the fold runs, and the four
fields are written back. -/
def processSinglePlateBody (cfg : RouteConfig) (plate : String)
    (records : List TraceRow) (s : Store) : Except PyErr (Bool × Store) :=
  match resolveName "PostSQLClient" with
  | .error e => .error e
  | .ok _ =>
    match lookupVehicle s plate with
    | none => .ok (true, s)
    | some row =>
      match plateFold cfg row records with
      | .error e => .error e
      | .ok row' => .ok (true, updateVehicle s plate row')

/-- _process_single_plate (summarize.py lines 244-336): any exception in the
body is caught and turned into the result False, leaving the store as it
was. -/
def process_single_plate (cfg : RouteConfig) (plate : String)
    (records : List TraceRow) (s : Store) : Bool × Store :=
  match processSinglePlateBody cfg plate records s with
  | .ok res => res
  | .error _ => (false, s)

/-- Insert a row into a list sorted by (plate, pass_time). -/
def insertRow (r : TraceRow) : List TraceRow → List TraceRow
  | [] => [r]
  | x :: xs =>
    if decide (r.plate < x.plate) || (r.plate == x.plate && decide (r.passTime ≤ x.passTime))
    then r :: x :: xs
    else x :: insertRow r xs

/-- ORDER BY plate, pass_time of the staging select (summarize.py line
350). -/
def sortRows : List TraceRow → List TraceRow
  | [] => []
  | r :: rest => insertRow r (sortRows rest)

/-- The distinct plates in first-appearance order (the keys of the
defaultdict grouping, summarize.py lines 355-358). -/
def distinctPlates (l : List String) : List String :=
  l.foldl (fun acc p => if acc.contains p then acc else acc ++ [p]) []

/-- Group the staged rows by plate (summarize.py lines 355-358). -/
def plateGroups (rows : List TraceRow) : List (String × List TraceRow) :=
  (distinctPlates (rows.map (fun r => r.plate))).map
    (fun p => (p, rows.filter (fun r => r.plate == p)))

/-- The worker-pool loop of _update_vehicle_info_from_staging (summarize.py
lines 360-393): every plate group is processed; a False task result is
counted as a failure and a True one as a success; no task result stops the
loop.  The per-plate tasks touch disjoint plates, so the concurrent pool is
modelled as a fold over the groups. -/
def runDispatch (cfg : RouteConfig) (groups : List (String × List TraceRow))
    (s : Store) : ℕ × ℕ × Store :=
  groups.foldl
    (fun acc g =>
      let res := process_single_plate cfg g.1 g.2 acc.2.2
      if res.1 then (acc.1 + 1, acc.2.1, res.2) else (acc.1, acc.2.1 + 1, res.2))
    (0, 0, s)

/-- _update_vehicle_info_from_staging (summarize.py lines 338-400): select
plate, mark, pass_time from the relation named staging_table ordered by
plate and pass_time, group by plate and dispatch the groups; a failure of
the select itself propagates to the caller.  Returns the success and failure
counts of line 393. -/
def update_vehicle_info_from_staging (cfg : RouteConfig) (s : Store) :
    Except PyErr (ℕ × ℕ × Store) :=
  match lookupTable s "staging_table" with
  | none => .error (.databaseError "staging_table")
  | some rows => .ok (runDispatch cfg (plateGroups (sortRows rows)) s)

/-- The transactional body of process_vehicle_data (summarize.py lines
224-239): drop the relation named staging_table, create and populate the
staging relation, append it to vehicle_record, run the aggregation, then
drop the relations named filtered_table and staging_table. -/
def processVehicleDataBody (cfg : RouteConfig) (s : Store) : Except PyErr Store :=
  match create_and_populate_staging (drop_table_if_exists s "staging_table") with
  | .error e => .error e
  | .ok s2 =>
    match import_from_staging_to_vehicle_record s2 with
    | .error e => .error e
    | .ok s3 =>
      match update_vehicle_info_from_staging cfg s3 with
      | .error e => .error e
      | .ok r =>
        .ok (drop_table_if_exists (drop_table_if_exists r.2.2 "filtered_table") "staging_table")

/-- process_vehicle_data (summarize.py lines 217-242): the body runs inside
db_connection, which rolls back on failure; the handler returns False on any
exception and the function returns True otherwise. -/
def process_vehicle_data (cfg : RouteConfig) (s : Store) : Bool × Store :=
  match processVehicleDataBody cfg s with
  | .ok s' => (true, s')
  | .error _ => (false, s)

/-! ## Concrete instances used by the claim theorems -/

/-- Ledger fold state of the order-sensitivity example: last mark at
outbound position 0, last time 0, no mileage, bonus 1. -/
def c6Ledger : FoldState :=
  { lastRecord := some "K0001+000", lastRecordTime := some 0, mileage := 0, bonus := 1 }

/-- First event of the order-sensitivity example: outbound position 1 at
time 1. -/
def c6e1 : TraceRow := { plate := "P", mark := some "K0100+000", passTime := 1 }

/-- Second event of the order-sensitivity example: outbound position 2 at
time 2. -/
def c6e2 : TraceRow := { plate := "P", mark := some "K0200+000", passTime := 2 }

/-- A registered vehicle row: ledger at outbound position 0, time 0, no
mileage, bonus 2. -/
def c8Row : VehicleRow :=
  { lastRecord := some "K0001+000", lastRecordTime := some 0, mileage := 0,
    bonus := 2, points := 0 }

/-- A staged record for that vehicle at the adjacent outbound position. -/
def c8Trace : TraceRow := { plate := "A001", mark := some "K0100+000", passTime := 5 }

/-- A store holding the vehicle and a populated filtered relation, as left
by a (hypothetical) successful ingest. -/
def c8Store : Store :=
  { vehicleInfo := [("A001", c8Row)], vehicleRecord := [],
    tables := [("filtered_trace_data", [c8Trace])] }

/-- A store that does contain a relation named staging_table holding the
staged record, so that the dispatch loop itself can be observed. -/
def c8StagedStore : Store :=
  { vehicleInfo := [("A001", c8Row)], vehicleRecord := [],
    tables := [("staging_table", [c8Trace])] }

/-! ## Helper lemmas about the store operations -/

lemma find?_filter_not_key (l : List (String × List TraceRow)) (n m : String) (h : m ≠ n) :
    (l.filter (fun kv => !(kv.1 == m))).find? (fun kv => kv.1 == n)
      = l.find? (fun kv => kv.1 == n) := by
  induction l with
  | nil => rfl
  | cons kv rest ih =>
    by_cases hm : kv.1 = m
    · have hmn : (m == n) = false := by simp [h]
      simp [List.filter_cons, List.find?_cons, hm, hmn, ih]
    · simp only [List.filter_cons, List.find?_cons]
      have hm' : (kv.1 == m) = false := by simp [hm]
      simp only [hm', Bool.not_false, if_true]
      rw [List.find?_cons]
      cases hkn : (kv.1 == n) <;> simp [hkn, ih]

lemma lookupTable_drop_self (s : Store) (n : String) :
    lookupTable (drop_table_if_exists s n) n = none := by
  have hfind : (s.tables.filter (fun kv => !(kv.1 == n))).find? (fun kv => kv.1 == n)
      = none := by
    rw [List.find?_eq_none]
    intro kv hkv
    rcases List.mem_filter.mp hkv with ⟨-, hkeep⟩
    simp only [Bool.not_eq_true'] at hkeep
    simp [hkeep]
  simp [lookupTable, drop_table_if_exists, hfind]

lemma lookupTable_drop_ne (s : Store) (m n : String) (h : m ≠ n) :
    lookupTable (drop_table_if_exists s m) n = lookupTable s n := by
  simp only [lookupTable, drop_table_if_exists]
  rw [find?_filter_not_key s.tables n m h]

lemma lookupTable_set_self (s : Store) (n : String) (rows : List TraceRow) :
    lookupTable (setTable s n rows) n = some rows := by
  simp [lookupTable, setTable, List.find?_cons]

lemma lookupTable_set_ne (s : Store) (m : String) (rows : List TraceRow) (n : String)
    (h : m ≠ n) :
    lookupTable (setTable s m rows) n = lookupTable s n := by
  simp only [lookupTable, setTable, List.find?_cons]
  have hm : (m == n) = false := by simp [h]
  simp only [hm, if_false, Bool.false_eq_true]
  rw [find?_filter_not_key s.tables n m h]

lemma lookupTable_tables_eq (s s' : Store) (n : String) (h : s'.tables = s.tables) :
    lookupTable s' n = lookupTable s n := by
  simp [lookupTable, h]

lemma create_and_populate_staging_keeps_staging_table (s s' : Store)
    (h : create_and_populate_staging s = .ok s') :
    lookupTable s' "staging_table" = lookupTable s "staging_table" := by
  unfold create_and_populate_staging at h
  cases hl : lookupTable (drop_table_if_exists s "staging_trace_data") "filtered_trace_data" with
  | none => rw [hl] at h; cases h
  | some rows =>
    rw [hl] at h
    injection h with h'
    rw [← h']
    rw [lookupTable_set_ne _ _ _ _ (by decide)]
    exact lookupTable_drop_ne s "staging_trace_data" "staging_table" (by decide)

lemma import_to_vehicle_record_keeps_tables (s s' : Store)
    (h : import_from_staging_to_vehicle_record s = .ok s') :
    s'.tables = s.tables := by
  unfold import_from_staging_to_vehicle_record at h
  cases hl : lookupTable s "staging_trace_data" with
  | none => rw [hl] at h; cases h
  | some rows => rw [hl] at h; injection h with h'; rw [← h']

/-- Every run of the transactional body of process_vehicle_data fails: line
226 drops the relation named staging_table, the staging stage only creates
staging_trace_data, and the aggregation select of line 348 then reads the
nonexistent staging_table. -/
lemma processVehicleDataBody_fails (cfg : RouteConfig) (s : Store) :
    ∃ e, processVehicleDataBody cfg s = .error e := by
  unfold processVehicleDataBody
  cases h2 : create_and_populate_staging (drop_table_if_exists s "staging_table") with
  | error e => exact ⟨e, rfl⟩
  | ok s2 =>
    dsimp only
    cases h3 : import_from_staging_to_vehicle_record s2 with
    | error e => exact ⟨e, rfl⟩
    | ok s3 =>
      dsimp only
      have hst : lookupTable s3 "staging_table" = none := by
        rw [lookupTable_tables_eq s2 s3 _ (import_to_vehicle_record_keeps_tables s2 s3 h3)]
        rw [create_and_populate_staging_keeps_staging_table _ s2 h2]
        exact lookupTable_drop_self s "staging_table"
      have hupd : update_vehicle_info_from_staging cfg s3 = .error (.databaseError "staging_table") := by
        unfold update_vehicle_info_from_staging
        rw [hst]
      rw [hupd]
      exact ⟨.databaseError "staging_table", rfl⟩

/-- process_vehicle_data always rolls back and returns False. -/
lemma process_vehicle_data_eq (cfg : RouteConfig) (s : Store) :
    process_vehicle_data cfg s = (false, s) := by
  obtain ⟨e, he⟩ := processVehicleDataBody_fails cfg s
  unfold process_vehicle_data
  rw [he]

/-- The COPY target of the trace import never exists when the COPY runs. -/
lemma importTraceBody_fails (csvRows : List TraceRow) (s : Store) :
    importTraceBody csvRows s = .error (.databaseError "raw_table") := by
  unfold importTraceBody
  have h : lookupTable (create_raw_table (drop_table_if_exists s "raw_table")) "raw_table"
      = none := by
    unfold create_raw_table
    cases hc : lookupTable (drop_table_if_exists s "raw_table") "raw_trace_data" with
    | some t => exact lookupTable_drop_self s "raw_table"
    | none =>
      rw [lookupTable_set_ne _ _ _ _ (by decide)]
      exact lookupTable_drop_self s "raw_table"
  have hcopy : copy_from (create_raw_table (drop_table_if_exists s "raw_table")) "raw_table" csvRows
      = .error (.databaseError "raw_table") := by
    unfold copy_from
    rw [h]
  rw [hcopy]

/-! ## Helper lemmas about the route scan -/

lemma scan_path_eq_some_of (m : String) (l : List String) (i : ℕ)
    (hlen : i < l.length)
    (hhit : strContains (l.getD i "") m = true)
    (hfirst : ∀ j, j < i → strContains (l.getD j "") m = false) :
    scan_path m l = some i := by
  induction l generalizing i with
  | nil => simp at hlen
  | cons p rest ih =>
    cases i with
    | zero =>
      simp only [List.getD_cons_zero] at hhit
      simp [scan_path, hhit]
    | succ k =>
      have h0 : strContains p m = false := by
        have := hfirst 0 (Nat.succ_pos k)
        simpa using this
      have hrec : scan_path m rest = some k := by
        apply ih
        · simpa using hlen
        · simpa using hhit
        · intro j hj
          have := hfirst (j + 1) (by omega)
          simpa using this
      simp [scan_path, h0, hrec]

lemma scan_path_eq_none_of (m : String) (l : List String)
    (h : ∀ p ∈ l, strContains p m = false) :
    scan_path m l = none := by
  induction l with
  | nil => rfl
  | cons p rest ih =>
    have hp : strContains p m = false := h p (List.mem_cons_self p rest)
    have hr := ih (fun q hq => h q (List.mem_cons_of_mem p hq))
    simp [scan_path, hp, hr]

/-! ## Claim theorems -/

/-- C1: the per-vehicle fold processes the staged records sequentially from
the loaded ledger state; a record whose timestamp is strictly earlier than a
set lastRecordTime is skipped with the state unchanged; otherwise the
mileage grows by mileage_diff exactly when both marks are present and
is_continuous holds, and lastRecord and lastRecordTime always move to the
record. -/
theorem c1_fold_step (cfg : RouteConfig) (st : FoldState) (r : TraceRow) :
    (timeSkips st.lastRecordTime r.passTime = true ↔
       ∃ t, st.lastRecordTime = some t ∧ r.passTime < t) ∧
    (timeSkips st.lastRecordTime r.passTime = true →
       process_record cfg st r = .ok st) ∧
    (timeSkips st.lastRecordTime r.passTime = false →
       ∀ mk lr d, r.mark = some mk → st.lastRecord = some lr →
         is_continuous cfg mk lr = .ok true → mileage_diff mk lr = .ok d →
         process_record cfg st r
           = .ok { lastRecord := some mk, lastRecordTime := some r.passTime,
                   mileage := st.mileage + d, bonus := st.bonus }) ∧
    (timeSkips st.lastRecordTime r.passTime = false →
       ∀ mk lr, r.mark = some mk → st.lastRecord = some lr →
         is_continuous cfg mk lr = .ok false →
         process_record cfg st r
           = .ok { lastRecord := some mk, lastRecordTime := some r.passTime,
                   mileage := st.mileage, bonus := st.bonus }) ∧
    (timeSkips st.lastRecordTime r.passTime = false →
       (r.mark = none ∨ st.lastRecord = none) →
       process_record cfg st r
         = .ok { lastRecord := r.mark, lastRecordTime := some r.passTime,
                 mileage := st.mileage, bonus := st.bonus }) ∧
    (∀ rest, process_records cfg st (r :: rest)
       = match process_record cfg st r with
         | .error e => .error e
         | .ok st' => process_records cfg st' rest) := by
  refine ⟨?_, ?_, ?_, ?_, ?_, fun rest => rfl⟩
  · cases h : st.lastRecordTime <;> simp [timeSkips, h]
  · intro h
    simp [process_record, h]
  · intro h mk lr d hmk hlr hc hd
    simp [process_record, h, hmk, hlr, hc, hd]
  · intro h mk lr hmk hlr hc
    simp [process_record, h, hmk, hlr, hc]
  · intro h hnone
    rcases hnone with hn | hn
    · simp [process_record, h, hn]
    · cases hm : r.mark with
      | none => simp [process_record, h, hn, hm]
      | some mk => simp [process_record, h, hn, hm]

/-- Witness for C1: a non-stale record at the adjacent outbound position
credits the computed distance and advances the ledger position and time. -/
theorem c1_fold_step_witness :
    process_record defaultRoute
      { lastRecord := some "K0001+000", lastRecordTime := some 0, mileage := 0, bonus := 2 }
      { plate := "A001", mark := some "K0100+000", passTime := 5 }
    = .ok { lastRecord := some "K0100+000", lastRecordTime := some 5,
            mileage := 0 + 99/1000, bonus := 2 } :=
  (c1_fold_step defaultRoute
      { lastRecord := some "K0001+000", lastRecordTime := some 0, mileage := 0, bonus := 2 }
      { plate := "A001", mark := some "K0100+000", passTime := 5 }).2.2.1
    (by decide) "K0100+000" "K0001+000" (99/1000) rfl rfl
    (by decide) (by with_unfolding_all decide)

/-- C2: mileage_diff does not return the absolute difference of the parsed
mark distances.  On the marks K0001+000 and K0100+000, whose parsed
kilometre distances are 1 and 100, the absolute difference is 99 while
mileage_diff returns 99/1000 - the code divides the kilometre difference by
a further 1000, contradicting its own docstring. -/
theorem c2_mileage_diff_not_abs_diff :
    mark_parse "K0001+000" = .ok 1 ∧
    mark_parse "K0100+000" = .ok 100 ∧
    pyAbs ((1 : ℚ) - 100) = 99 ∧
    mileage_diff "K0001+000" "K0100+000" = .ok (99/1000) ∧
    (99/1000 : ℚ) ≠ 99 := by
  refine ⟨?_, ?_, ?_, ?_, ?_⟩ <;> with_unfolding_all decide

/-- C3: for marks with positions, is_continuous is the test that the first
position exceeds the second by exactly one, and it is antisymmetric in the
stated sense. -/
theorem c3_is_continuous_iff (cfg : RouteConfig) (a b : String) (ia ib : ℤ)
    (ha : path_index cfg (some a) = .ok ia) (hb : path_index cfg (some b) = .ok ib) :
    (is_continuous cfg a b = .ok true ↔ ia - ib = 1) ∧
    (is_continuous cfg a b = .ok true → is_continuous cfg b a = .ok false) := by
  have h1 : is_continuous cfg a b = .ok (decide (ia - ib = 1)) := by
    unfold is_continuous
    rw [ha, hb]
  have h2 : is_continuous cfg b a = .ok (decide (ib - ia = 1)) := by
    unfold is_continuous
    rw [ha, hb]
  constructor
  · rw [h1]
    constructor
    · intro h
      injection h with h'
      exact of_decide_eq_true h'
    · intro h
      simp [h]
  · intro h
    rw [h1] at h
    injection h with h'
    have hd := of_decide_eq_true h'
    rw [h2]
    have : ¬(ib - ia = 1) := by omega
    simp [this]

/-- Witness for C3: outbound positions 1 and 0 of the default route are
continuous in one order and not in the other. -/
theorem c3_is_continuous_witness :
    is_continuous defaultRoute "K0100+000" "K0001+000" = .ok true ∧
    is_continuous defaultRoute "K0001+000" "K0100+000" = .ok false := by
  have h := c3_is_continuous_iff defaultRoute "K0100+000" "K0001+000" 1 0
    (by decide) (by decide)
  exact ⟨h.1.mpr (by norm_num), h.2 (h.1.mpr (by norm_num))⟩

/-- C4: path_index returns the index of the first outbound position matching
the mark; only when no outbound position matches does it return the first
matching inbound index offset by 10000; and it fails with ValueError when
the mark occurs in neither direction. -/
theorem c4_path_index_first_match (cfg : RouteConfig) (m : String) :
    (∀ i, i < cfg.outbound.length →
       strContains (cfg.outbound.getD i "") m = true →
       (∀ j, j < i → strContains (cfg.outbound.getD j "") m = false) →
       path_index cfg (some m) = .ok (i : ℤ)) ∧
    ((∀ p ∈ cfg.outbound, strContains p m = false) →
       ∀ i, i < cfg.inbound.length →
         strContains (cfg.inbound.getD i "") m = true →
         (∀ j, j < i → strContains (cfg.inbound.getD j "") m = false) →
         path_index cfg (some m) = .ok ((i : ℤ) + 10000)) ∧
    ((∀ p ∈ cfg.outbound, strContains p m = false) →
     (∀ p ∈ cfg.inbound, strContains p m = false) →
       path_index cfg (some m) = .error (.valueError m)) := by
  refine ⟨?_, ?_, ?_⟩
  · intro i hlen hhit hfirst
    unfold path_index
    dsimp only
    rw [scan_path_eq_some_of m cfg.outbound i hlen hhit hfirst]
  · intro hout i hlen hhit hfirst
    unfold path_index
    dsimp only
    rw [scan_path_eq_none_of m cfg.outbound hout]
    rw [scan_path_eq_some_of m cfg.inbound i hlen hhit hfirst]
  · intro hout hin
    unfold path_index
    dsimp only
    rw [scan_path_eq_none_of m cfg.outbound hout]
    rw [scan_path_eq_none_of m cfg.inbound hin]

/-- Witness for C4: the token K0100+300 occurs at inbound positions 1, 2 and
3 of the default route and nowhere outbound; the first match wins, giving
index 1 + 10000. -/
theorem c4_path_index_witness :
    path_index defaultRoute (some "K0100+300") = .ok 10001 := by
  have h := (c4_path_index_first_match defaultRoute "K0100+300").2.1
    (by decide) 1 (by decide) (by decide) (by decide)
  simpa using h

/-- C5: after the fold, the points column is overwritten with the final
cumulative mileage times the bonus multiplier, never incremented from the
previous points value; and on the spec example, the final mileage is the
computed distance 99/1000 and the final points is that distance times 2. -/
theorem c5_points_overwrite (cfg : RouteConfig) (row : VehicleRow)
    (records : List TraceRow) (st : FoldState)
    (h : process_records cfg
      { lastRecord := row.lastRecord, lastRecordTime := row.lastRecordTime,
        mileage := row.mileage, bonus := row.bonus } records = .ok st) :
    plateFold cfg row records
      = .ok { lastRecord := st.lastRecord, lastRecordTime := st.lastRecordTime,
              mileage := st.mileage, bonus := row.bonus,
              points := st.mileage * st.bonus } ∧
    ∀ p0 : ℚ, plateFold defaultRoute
        { lastRecord := some "K0001+000", lastRecordTime := some 0,
          mileage := 0, bonus := 2, points := p0 }
        [{ plate := "A001", mark := some "K0100+000", passTime := 5 }]
      = .ok { lastRecord := some "K0100+000", lastRecordTime := some 5,
              mileage := 99/1000, bonus := 2, points := (99/1000) * 2 } := by
  constructor
  · unfold plateFold
    rw [h]
  · intro p0
    have hpr : process_records defaultRoute
        { lastRecord := some "K0001+000", lastRecordTime := some 0, mileage := 0, bonus := 2 }
        [{ plate := "A001", mark := some "K0100+000", passTime := 5 }]
        = .ok { lastRecord := some "K0100+000", lastRecordTime := some 5,
                mileage := 99/1000, bonus := 2 } := by
      with_unfolding_all decide
    unfold plateFold
    rw [hpr]

/-- Witness for C5: the points written for a concrete row with stale points
7 are recomputed as mileage times bonus. -/
theorem c5_points_overwrite_witness :
    plateFold defaultRoute
      { lastRecord := some "K0001+000", lastRecordTime := some 0,
        mileage := 0, bonus := 2, points := 7 }
      [{ plate := "A001", mark := some "K0100+000", passTime := 5 }]
    = .ok { lastRecord := some "K0100+000", lastRecordTime := some 5,
            mileage := 99/1000, bonus := 2, points := (99/1000) * 2 } :=
  (c5_points_overwrite defaultRoute
    { lastRecord := some "K0001+000", lastRecordTime := some 0,
      mileage := 0, bonus := 2, points := 7 }
    [{ plate := "A001", mark := some "K0100+000", passTime := 5 }]
    { lastRecord := some "K0100+000", lastRecordTime := some 5,
      mileage := 99/1000, bonus := 2 }
    (by with_unfolding_all decide)).2 7

/-- C6 counterexample: the two orders of the same two events, one of which
is the ascending order, produce different final fold states, so the fold is
not insensitive to the input permutation. -/
theorem c6_counterexample_order_matters :
    [c6e2, c6e1].Perm [c6e1, c6e2] ∧
    c6e1.passTime ≤ c6e2.passTime ∧
    process_records defaultRoute c6Ledger [c6e2, c6e1]
      ≠ process_records defaultRoute c6Ledger [c6e1, c6e2] := by
  refine ⟨List.Perm.swap c6e1 c6e2 [], by decide, by with_unfolding_all decide⟩

/-- C6 amended: replaying out of timestamp order can change the final ledger
state relative to replaying sorted ascending: in ascending order both events
are credited (mileage 199/1000), while in descending order the older event
is skipped against the advanced ledger time and no mileage at all is
credited. -/
theorem c6_order_sensitivity :
    process_records defaultRoute c6Ledger [c6e1, c6e2]
      = .ok { lastRecord := some "K0200+000", lastRecordTime := some 2,
              mileage := 199/1000, bonus := 1 } ∧
    process_records defaultRoute c6Ledger [c6e2, c6e1]
      = .ok { lastRecord := some "K0200+000", lastRecordTime := some 2,
              mileage := 0, bonus := 1 } ∧
    timeSkips (some c6e2.passTime) c6e1.passTime = true := by
  refine ⟨by with_unfolding_all decide, by with_unfolding_all decide, by decide⟩

/-- C7: two consecutive reconcile runs leave every vehicle row exactly as it
was, so no mileage is double counted; but not because a successful reconcile
cleared the staged state - every run of process_vehicle_data returns False
and rolls back, because the aggregation reads the relation name
staging_table that line 226 just dropped while the staging stage populates
staging_trace_data. -/
theorem c7_reconcile_twice_no_double_count (cfg : RouteConfig) (s : Store)
    (plate : String) :
    lookupVehicle (process_vehicle_data cfg (process_vehicle_data cfg s).2).2 plate
      = lookupVehicle s plate ∧
    (process_vehicle_data cfg s).1 = false := by
  rw [process_vehicle_data_eq cfg s]
  rw [process_vehicle_data_eq cfg s]
  exact ⟨rfl, rfl⟩

/-- C8: on a store left by an ingest (filtered relation populated, vehicle
registered), process_vehicle_data returns False - the dispatch phase never
completes because its staging read targets the dropped name staging_table -
while the dispatch loop itself, run on a store that does hold a relation of
that name, processes the plate group, counts its failed fold (0 successes,
1 failure) and returns normally instead of aborting. -/
theorem c8_batch_flag_always_false :
    process_vehicle_data defaultRoute c8Store = (false, c8Store) ∧
    update_vehicle_info_from_staging defaultRoute c8StagedStore
      = .ok (0, 1, c8StagedStore) := by
  exact ⟨by decide, by decide⟩

/-- C9: _process_single_plate always returns False and leaves the store
untouched: the name PostSQLClient is resolved against the module namespace
of summarize.py, which never binds it (the import is PostgreSQLClient), so
the body raises NameError before reading or writing the ledger and the
handler converts this into False. -/
theorem c9_process_single_plate_always_false (cfg : RouteConfig) (plate : String)
    (records : List TraceRow) (s : Store) :
    process_single_plate cfg plate records s = (false, s) ∧
    resolveName "PostSQLClient" = .error (.nameError "PostSQLClient") :=
  ⟨rfl, rfl⟩

/-- C10: import_vehicle_trace_from_csv always raises IOError and leaves the
store unchanged: the raw relation is created under the name raw_trace_data
while the COPY targets the relation named raw_table, which was just dropped,
so the load fails and the transaction rolls back. -/
theorem c10_import_trace_always_io_error (csvRows : List TraceRow) (s : Store) :
    import_vehicle_trace_from_csv csvRows s
      = (.error (.ioError "import_vehicle_trace_from_csv"), s) := by
  unfold import_vehicle_trace_from_csv
  rw [importTraceBody_fails csvRows s]

end SummarizeVehicle
